import Mathlib

/-!
Verification development for the `mavlink-vehicles` repository.

The repository ships `src/mavlink_vehicles.hh`, the full declaration of the
`mavlink_vehicles` namespace: the telemetry value types (`state_variable`,
`attitude`, `global_pos_int`, `local_pos`), the enumerations (`status`,
`mode`, `arm_status`, `gps_status`, `autopilot_type`, `cmd_custom`,
`mission_status`), the coordinate-math function signatures, and the
`mav_vehicle` session class with its private fields and their in-class
initializers.  The implementation file is not part of the sources, so the
bodies of the member functions and of the math functions are modelled from
the specification document; the structure layouts, field defaults and
enumeration values below are taken directly from the header.

Timestamps (`std::chrono::time_point<system_clock>`) are modelled as natural
numbers counting milliseconds, with `0` for the sentinel
`system_clock::from_time_t(0)`.  C++ `double`/`float` values are modelled as
real numbers, and the fixed-point `int32_t` latitude/longitude/altitude
fields as unbounded integers (the claims under verification only involve
displacements of a few kilometres, far from any 32-bit overflow).
-/

namespace mavlink_vehicles

/-- Mirror of `struct state_variable`: a timestamp (epoch sentinel `0`) and
the freshness flag `is_new`, defaulting to stale/unset as in the header. -/
structure state_variable where
  timestamp : Nat
  is_new : Bool
deriving DecidableEq

/-- Mirror of `state_variable::is_initialized`: the timestamp differs from
the epoch sentinel. -/
def state_variable.is_initialized (s : state_variable) : Bool :=
  s.timestamp != 0

/-- Mirror of `struct attitude : state_variable` (roll/pitch/yaw in
radians, modelled as reals). -/
structure attitude extends state_variable where
  roll : ℝ
  pitch : ℝ
  yaw : ℝ

/-- Mirror of `struct global_pos_int : state_variable`: latitude and
longitude in degrees times 1e7, altitude in millimetres AMSL. -/
structure global_pos_int extends state_variable where
  lat : ℤ
  lon : ℤ
  alt : ℤ
deriving DecidableEq

/-- Mirror of `struct local_pos : state_variable`: North-East-Down offsets
in metres. -/
structure local_pos extends state_variable where
  x : ℝ
  y : ℝ
  z : ℝ

/-- Mirror of `enum class status`. -/
inductive status where
  | STANDBY
  | ACTIVE
deriving DecidableEq

/-- Mirror of `enum class mode`. -/
inductive mode where
  | GUIDED
  | AUTO
  | BRAKE
  | OTHER
  | TAKEOFF
deriving DecidableEq

/-- Mirror of `enum class arm_status`. -/
inductive arm_status where
  | ARMED
  | NOT_ARMED
deriving DecidableEq

/-- Mirror of `enum class gps_status`. -/
inductive gps_status where
  | NO_FIX
  | FIX_2D_PLUS
deriving DecidableEq

/-- Mirror of `enum class autopilot_type`. -/
inductive autopilot_type where
  | APM
  | PX4
  | UNKNOWN
deriving DecidableEq

/-- Mirror of `enum class cmd_custom`. -/
inductive cmd_custom where
  | HEARTBEAT
  | SET_MODE_GUIDED
  | SET_MODE_AUTO
  | SET_MODE_BRAKE
  | SET_MODE_TAKEOFF
  | REQUEST_MISSION_ITEM
  | REQUEST_MISSION_LIST
  | ROTATE
  | DETOUR
deriving DecidableEq, BEq

/-- Mirror of `enum class mission_status`. -/
inductive mission_status where
  | BRAKING
  | DETOURING
  | ROTATING
  | NORMAL
deriving DecidableEq

namespace math

noncomputable section

/-- Modelled from the spec: scalar degree-to-radian conversion
(`math::deg2rad`, declared in the header, body absent from `src/`). -/
def deg2rad (x : ℝ) : ℝ :=
  x * (Real.pi / 180)

/-- Modelled from the spec: scalar radian-to-degree conversion
(`math::rad2deg`, declared in the header, body absent from `src/`). -/
def rad2deg (x : ℝ) : ℝ :=
  x * (180 / Real.pi)

/-- Mean Earth radius in metres, the anchor constant of the local
tangent-plane projection. -/
def earth_radius : ℝ := 6371000

/-- Modelled from the spec: `math::global_to_local_ned` (body absent from
`src/`) projects a geodetic fixed-point position into the North-East-Down
tangent plane anchored at `reference`, using the equirectangular (small
area) approximation: north = arc of the latitude difference, east = arc of
the longitude difference scaled by the cosine of the reference latitude,
down = negated altitude difference converted from millimetres to metres. -/
def global_to_local_ned (point reference : global_pos_int) : local_pos :=
  { timestamp := 0
    is_new := false
    x := deg2rad (((point.lat : ℝ) - (reference.lat : ℝ)) * 1e-7) * earth_radius
    y := deg2rad (((point.lon : ℝ) - (reference.lon : ℝ)) * 1e-7) * earth_radius *
           Real.cos (deg2rad ((reference.lat : ℝ) * 1e-7))
    z := -(((point.alt : ℝ) - (reference.alt : ℝ)) / 1000) }

/-- Modelled from the spec: `math::local_ned_to_global` (body absent from
`src/`), the inverse equirectangular projection, rounding each recovered
fixed-point coordinate to the nearest integer unit. -/
def local_ned_to_global (point : local_pos) (reference : global_pos_int) : global_pos_int :=
  { timestamp := 0
    is_new := false
    lat := reference.lat + round (rad2deg (point.x / earth_radius) * 1e7)
    lon := reference.lon +
             round (rad2deg (point.y /
               (earth_radius * Real.cos (deg2rad ((reference.lat : ℝ) * 1e-7)))) * 1e7)
    alt := reference.alt - round (point.z * 1000) }

/-- Modelled from the spec: the `global_pos_int` overload of
`math::ground_dist` (body absent from `src/`), the horizontal-only
great-circle (haversine) distance in metres between two geodetic points,
ignoring altitude. -/
def ground_dist (p1 p2 : global_pos_int) : ℝ :=
  2 * earth_radius *
    Real.arcsin (Real.sqrt (
      Real.sin ((deg2rad ((p2.lat : ℝ) * 1e-7) - deg2rad ((p1.lat : ℝ) * 1e-7)) / 2) ^ 2 +
      Real.cos (deg2rad ((p1.lat : ℝ) * 1e-7)) * Real.cos (deg2rad ((p2.lat : ℝ) * 1e-7)) *
        Real.sin ((deg2rad ((p2.lon : ℝ) * 1e-7) - deg2rad ((p1.lon : ℝ) * 1e-7)) / 2) ^ 2))

/-- Modelled from the spec: the `local_pos` overload of `math::ground_dist`
(body absent from `src/`), the horizontal-only Euclidean distance in the
tangent plane, ignoring the down coordinate. -/
def ground_dist_local (p1 p2 : local_pos) : ℝ :=
  Real.sqrt ((p1.x - p2.x) ^ 2 + (p1.y - p2.y) ^ 2)

end

end math

/-- Modelled from the spec: the per-family custom-mode table ("two families
modeled: family A (APM) and family B (PX4), each with distinct numeric
codes for the same semantic mode").  The mapping bodies are absent from
`src/`; the numeric codes are representative constants, with the two
families' GUIDED codes distinct as the spec requires, and every raw code
without a table entry for the detected family — as well as every code under
an undetected (UNKNOWN) family — mapping to OTHER. -/
def mode_from_raw (family : autopilot_type) (c : Nat) : mode :=
  match family with
  | .APM =>
      if c = 3 then .AUTO
      else if c = 4 then .GUIDED
      else if c = 17 then .BRAKE
      else .OTHER
  | .PX4 =>
      if c = 4 then .AUTO
      else if c = 6 then .GUIDED
      else if c = 2 then .TAKEOFF
      else .OTHER
  | .UNKNOWN => .OTHER

/-- The raw custom-mode codes that have a table entry for each family. -/
def known_mode_codes (family : autopilot_type) : List Nat :=
  match family with
  | .APM => [3, 4, 17]
  | .PX4 => [4, 6, 2]
  | .UNKNOWN => []

/-- Throttling cadence of the command/retry subsystem, in milliseconds.
Modelled from the spec: "a fixed retry interval (shorter than `timeout`)";
the spec's design note picks a 1 s retry cadence. -/
def cmd_retry_interval : Nat := 1000

/-- Liveness timeout in milliseconds.  Modelled from the spec: "no
heartbeat within timeout"; the spec's design note picks 3 s. -/
def liveness_timeout : Nat := 3000

/-- Mirror of `class mav_vehicle`'s private state.  Field defaults are the
header's in-class initializers; fields the header leaves to the constructor
are set by `init_vehicle` below.  `local` is a Lean keyword, so the header's
`local` field is named `local_position` here. -/
structure mav_vehicle where
  stat : status
  arm_stat : arm_status
  gps : gps_status
  base_mode : mode
  att : attitude
  local_position : local_pos
  speed : local_pos
  home : global_pos_int
  global : global_pos_int
  mission_waypoint : global_pos_int
  mission_waypoint_id : Nat
  mission_waypoint_outdated : Bool
  sending_mission : Bool
  mission_to_send : List global_pos_int
  receiving_mission : Bool
  mission_size : Nat
  received_mission : List global_pos_int
  mstatus : mission_status
  detour_waypoint : global_pos_int
  detour_waypoint_autocontinue : Bool
  mission_waypoint_autorotate : Bool
  detour_waypoint_autorotate : Bool
  rotation_goal : ℝ
  is_our_control : Bool
  autocontinue_after_brake : Bool
  autocontinue_after_rotation : Bool
  autocontinue_action : mission_status
  stop_time : Nat
  autopilot : autopilot_type
  system_id : Nat
  sock : Int
  remote_last_response_time : Nat
  remote_responding : Bool
  cmd_long_timestamps : List (Nat × Nat)
  cmd_custom_timestamps : List (cmd_custom × Nat)

/-- A telemetry slot that has never been written: epoch-sentinel timestamp
and clear freshness flag, as in `state_variable`'s in-class initializers. -/
def never_pos_int : global_pos_int :=
  { timestamp := 0, is_new := false, lat := 0, lon := 0, alt := 0 }

/-- An attitude slot that has never been written. -/
def never_attitude : attitude :=
  { timestamp := 0, is_new := false, roll := 0, pitch := 0, yaw := 0 }

/-- A local-position slot that has never been written. -/
def never_local_pos : local_pos :=
  { timestamp := 0, is_new := false, x := 0, y := 0, z := 0 }

/-- Modelled from the spec plus the header's in-class initializers: the
state established by the two constructors `mav_vehicle(int socket_fd)` and
`mav_vehicle(int socket_fd, uint8_t sysid)` (bodies absent from `src/`).
All entities are created with "never initialized" sentinels; the booleans,
counters and enum fields take the header's explicit defaults
(`sending_mission = false`, `receiving_mission = false`,
`mstatus = NORMAL`, `autopilot = UNKNOWN`, epoch timestamps, empty retry
maps). -/
def init_vehicle (socket_fd : Int) (sysid : Option Nat) : mav_vehicle :=
  { stat := .STANDBY
    arm_stat := .NOT_ARMED
    gps := .NO_FIX
    base_mode := .OTHER
    att := never_attitude
    local_position := never_local_pos
    speed := never_local_pos
    home := never_pos_int
    global := never_pos_int
    mission_waypoint := never_pos_int
    mission_waypoint_id := 0
    mission_waypoint_outdated := true
    sending_mission := false
    mission_to_send := []
    receiving_mission := false
    mission_size := 0
    received_mission := []
    mstatus := .NORMAL
    detour_waypoint := never_pos_int
    detour_waypoint_autocontinue := true
    mission_waypoint_autorotate := false
    detour_waypoint_autorotate := false
    rotation_goal := 0
    is_our_control := false
    autocontinue_after_brake := true
    autocontinue_after_rotation := false
    autocontinue_action := .NORMAL
    stop_time := 0
    autopilot := .UNKNOWN
    system_id := sysid.getD 0
    sock := socket_fd
    remote_last_response_time := 0
    remote_responding := false
    cmd_long_timestamps := []
    cmd_custom_timestamps := [] }

/-- Mirror of `mav_vehicle::get_mode` (a `const` accessor): the stored
semantic mode. -/
def get_mode (v : mav_vehicle) : mode := v.base_mode

/-- Mirror of `mav_vehicle::get_status` (a `const` accessor): the stored
liveness-derived status. -/
def get_status (v : mav_vehicle) : status := v.stat

/-- Modelled from the spec: `mav_vehicle::get_attitude` returns the stored
attitude and, as a side effect, clears its freshness flag ("read consumes
freshness"). -/
def get_attitude (v : mav_vehicle) : attitude × mav_vehicle :=
  (v.att, { v with att := { v.att with is_new := false } })

/-- Modelled from the spec: `mav_vehicle::get_local_position_ned`, reading
and un-freshening the local position. -/
def get_local_position_ned (v : mav_vehicle) : local_pos × mav_vehicle :=
  (v.local_position, { v with local_position := { v.local_position with is_new := false } })

/-- Modelled from the spec: `mav_vehicle::get_home_position_int`, reading
and un-freshening the home position. -/
def get_home_position_int (v : mav_vehicle) : global_pos_int × mav_vehicle :=
  (v.home, { v with home := { v.home with is_new := false } })

/-- Modelled from the spec: `mav_vehicle::get_global_position_int`, reading
and un-freshening the global position. -/
def get_global_position_int (v : mav_vehicle) : global_pos_int × mav_vehicle :=
  (v.global, { v with global := { v.global with is_new := false } })

/-- Modelled from the spec: `mav_vehicle::get_mission_waypoint`, reading
and un-freshening the current mission waypoint. -/
def get_mission_waypoint (v : mav_vehicle) : global_pos_int × mav_vehicle :=
  (v.mission_waypoint, { v with mission_waypoint := { v.mission_waypoint with is_new := false } })

/-- Modelled from the spec: `mav_vehicle::get_detour_waypoint`, reading and
un-freshening the current detour waypoint. -/
def get_detour_waypoint (v : mav_vehicle) : global_pos_int × mav_vehicle :=
  (v.detour_waypoint, { v with detour_waypoint := { v.detour_waypoint with is_new := false } })

/-- Modelled from the spec: `mav_vehicle::send_cmd_long(cmd, p1..p7,
timeout)` (body absent from `src/`).  It looks up the last-send timestamp
stored for `cmd`; if absent or older than the fixed retry interval it
transmits the frame and records `now` for `cmd`, otherwise it is a no-op.
The returned boolean reports whether a frame was transmitted; `now` is the
wall clock sampled by the surrounding update cycle.  (The seven float
parameters only populate the outgoing frame and do not influence the
throttling decision.) -/
def send_cmd_long (v : mav_vehicle) (cmd : Nat)
    (_p1 _p2 _p3 _p4 _p5 _p6 _p7 : ℝ) (_timeout : Nat) (now : Nat) :
    mav_vehicle × Bool :=
  match v.cmd_long_timestamps.lookup cmd with
  | none =>
      ({ v with cmd_long_timestamps := (cmd, now) :: v.cmd_long_timestamps }, true)
  | some last =>
      if last + cmd_retry_interval < now then
        ({ v with cmd_long_timestamps := (cmd, now) :: v.cmd_long_timestamps }, true)
      else
        (v, false)

/-- One observable interaction with a session: either a decoded inbound
frame handed to the Message Interpreter, a public accessor read, a public
command call, or one wall-clock liveness evaluation of the update cycle.
Times `t` are the wall clock in milliseconds. -/
inductive event where
  | heartbeat (family : autopilot_type) (custom : Nat) (armed : Bool) (t : Nat)
  | attitude_msg (roll pitch yaw : ℝ) (t : Nat)
  | local_position_msg (x y z : ℝ) (t : Nat)
  | global_position_msg (lat lon alt : ℤ) (t : Nat)
  | home_position_msg (lat lon alt : ℤ) (t : Nat)
  | gps_status_msg (fix : gps_status)
  | mission_count_msg (n : Nat)
  | mission_item_msg (lat lon alt : ℤ) (t : Nat)
  | mission_request_msg (seq : Nat)
  | mission_ack_msg
  | read_attitude
  | read_local_position
  | read_global_position
  | read_home_position
  | read_mission_waypoint
  | read_detour_waypoint
  | brake (autocontinue : Bool)
  | rotate (angle : ℝ) (autocontinue : Bool)
  | send_detour_waypoint (lat lon alt : ℤ) (autocontinue autorotate : Bool)
  | send_mission_waypoint (lat lon alt : ℤ) (autorotate : Bool)
  | request_mission_list
  | cmd_long (cmd : Nat) (p1 p2 p3 p4 p5 p6 p7 : ℝ) (timeout : Nat) (t : Nat)
  | update_cycle (t : Nat)

/-- Modelled from the spec: the session transition function (the member
function bodies are absent from `src/`).  Inbound frames are folded into
the telemetry store by the Message Interpreter — a heartbeat fixes the
autopilot family exactly once, remaps the raw custom mode through the
family table, refreshes liveness and restores ACTIVE; telemetry frames
write their slot with the current timestamp and a set freshness flag; the
mission count/item/ack frames drive the Mission Transfer machine, which
accumulates downloaded items privately and publishes the result only when
the received count equals the announced count.  Public reads consume
freshness; `brake`/`rotate`/`send_detour_waypoint` immediately preempt the
current maneuver; `send_mission_waypoint` starts an upload (aborting any
download) and `request_mission_list` starts a download (aborting any
upload); the update cycle's liveness evaluation downgrades the status to
STANDBY once the last response is older than the liveness timeout, touching
nothing else.  Maneuver-completion checks and outbound retransmissions of
the update cycle produce traffic but no state relevant to the properties
below and are not modelled. -/
def step (v : mav_vehicle) (e : event) : mav_vehicle :=
  match e with
  | .heartbeat family custom armed t =>
      let fam := if v.autopilot = .UNKNOWN then family else v.autopilot
      { v with autopilot := fam
               base_mode := mode_from_raw fam custom
               arm_stat := if armed then .ARMED else .NOT_ARMED
               remote_last_response_time := t
               remote_responding := true
               stat := .ACTIVE }
  | .attitude_msg roll pitch yaw t =>
      { v with att := { timestamp := t, is_new := true, roll := roll, pitch := pitch, yaw := yaw } }
  | .local_position_msg x y z t =>
      { v with local_position := { timestamp := t, is_new := true, x := x, y := y, z := z } }
  | .global_position_msg lat lon alt t =>
      { v with global := { timestamp := t, is_new := true, lat := lat, lon := lon, alt := alt } }
  | .home_position_msg lat lon alt t =>
      { v with home := { timestamp := t, is_new := true, lat := lat, lon := lon, alt := alt } }
  | .gps_status_msg fix => { v with gps := fix }
  | .mission_count_msg n =>
      if v.receiving_mission then
        if n = 0 then
          { v with receiving_mission := false, mission_size := 0, received_mission := [] }
        else
          { v with mission_size := n, received_mission := [] }
      else v
  | .mission_item_msg lat lon alt t =>
      if v.receiving_mission then
        let items := v.received_mission ++
          [{ timestamp := t, is_new := true, lat := lat, lon := lon, alt := alt }]
        if items.length = v.mission_size then
          { v with receiving_mission := false
                   received_mission := items
                   mission_waypoint := items.getD v.mission_waypoint_id v.mission_waypoint }
        else
          { v with received_mission := items }
      else v
  | .mission_request_msg _seq => v
  | .mission_ack_msg =>
      if v.sending_mission then { v with sending_mission := false } else v
  | .read_attitude => (get_attitude v).2
  | .read_local_position => (get_local_position_ned v).2
  | .read_global_position => (get_global_position_int v).2
  | .read_home_position => (get_home_position_int v).2
  | .read_mission_waypoint => (get_mission_waypoint v).2
  | .read_detour_waypoint => (get_detour_waypoint v).2
  | .brake autocontinue =>
      { v with mstatus := .BRAKING, autocontinue_after_brake := autocontinue }
  | .rotate angle autocontinue =>
      { v with mstatus := .ROTATING, rotation_goal := angle,
               autocontinue_after_rotation := autocontinue }
  | .send_detour_waypoint lat lon alt ac ar =>
      { v with mstatus := .DETOURING
               detour_waypoint := { timestamp := 0, is_new := true, lat := lat, lon := lon, alt := alt }
               detour_waypoint_autocontinue := ac
               detour_waypoint_autorotate := ar }
  | .send_mission_waypoint lat lon alt ar =>
      { v with sending_mission := true
               receiving_mission := false
               mission_to_send := [{ timestamp := 0, is_new := false, lat := lat, lon := lon, alt := alt }]
               mission_waypoint_autorotate := ar }
  | .request_mission_list =>
      { v with receiving_mission := true
               sending_mission := false
               mission_size := 0
               received_mission := [] }
  | .cmd_long cmd p1 p2 p3 p4 p5 p6 p7 timeout t =>
      (send_cmd_long v cmd p1 p2 p3 p4 p5 p6 p7 timeout t).1
  | .update_cycle t =>
      if v.remote_last_response_time + liveness_timeout < t then
        { v with stat := .STANDBY, remote_responding := false }
      else v

/-- A session trace: the fold of `step` over a list of events from a given
state. -/
def run (v : mav_vehicle) (es : List event) : mav_vehicle :=
  es.foldl step v

/-- Mirror of `mav_vehicle::is_sending_mission`. -/
def is_sending_mission (v : mav_vehicle) : Bool := v.sending_mission

/-- Mirror of `mav_vehicle::is_receiving_mission`. -/
def is_receiving_mission (v : mav_vehicle) : Bool := v.receiving_mission

/-- Modelled from the spec: `mav_vehicle::is_brake_active` reports whether
the arbitration state machine is in BRAKING. -/
def is_brake_active (v : mav_vehicle) : Bool :=
  match v.mstatus with
  | .BRAKING => true
  | _ => false

/-- Modelled from the spec: `mav_vehicle::is_detour_active` reports whether
the arbitration state machine is in DETOURING. -/
def is_detour_active (v : mav_vehicle) : Bool :=
  match v.mstatus with
  | .DETOURING => true
  | _ => false

/-- Modelled from the spec: `mav_vehicle::is_rotation_active` reports
whether the arbitration state machine is in ROTATING. -/
def is_rotation_active (v : mav_vehicle) : Bool :=
  match v.mstatus with
  | .ROTATING => true
  | _ => false

/-- Events that write the attitude telemetry slot. -/
def writes_attitude : event → Bool
  | .attitude_msg _ _ _ _ => true
  | _ => false

/-- Events that read (and hence un-freshen) the attitude telemetry slot. -/
def reads_attitude : event → Bool
  | .read_attitude => true
  | _ => false

/-- Events that write the local-position telemetry slot. -/
def writes_local_position : event → Bool
  | .local_position_msg _ _ _ _ => true
  | _ => false

/-- Events that read the local-position telemetry slot. -/
def reads_local_position : event → Bool
  | .read_local_position => true
  | _ => false

/-- Events that write the global-position telemetry slot. -/
def writes_global_position : event → Bool
  | .global_position_msg _ _ _ _ => true
  | _ => false

/-- Events that read the global-position telemetry slot. -/
def reads_global_position : event → Bool
  | .read_global_position => true
  | _ => false

/-- Events that write the home-position telemetry slot. -/
def writes_home_position : event → Bool
  | .home_position_msg _ _ _ _ => true
  | _ => false

/-- Events that read the home-position telemetry slot. -/
def reads_home_position : event → Bool
  | .read_home_position => true
  | _ => false

/-- The inbound mission-item frames carrying the given fixed-point triples,
all decoded at wall-clock time `t`. -/
def item_events (items : List (ℤ × ℤ × ℤ)) (t : Nat) : List event :=
  items.map (fun i => .mission_item_msg i.1 i.2.1 i.2.2 t)

namespace math

theorem rad2deg_deg2rad (x : ℝ) : rad2deg (deg2rad x) = x := by
  unfold rad2deg deg2rad
  field_simp

theorem earth_radius_ne_zero : earth_radius ≠ 0 := by
  unfold earth_radius
  norm_num

theorem roundtrip_lat (P R : global_pos_int) :
    (local_ned_to_global (global_to_local_ned P R) R).lat = P.lat := by
  unfold local_ned_to_global global_to_local_ned
  simp only
  rw [mul_div_cancel_right₀ _ earth_radius_ne_zero, rad2deg_deg2rad]
  have h7 : ((P.lat : ℝ) - (R.lat : ℝ)) * 1e-7 * 1e7 = ((P.lat - R.lat : ℤ) : ℝ) := by
    push_cast
    norm_num
    ring
  rw [h7, round_intCast]
  omega

theorem roundtrip_lon (P R : global_pos_int)
    (h : Real.cos (deg2rad ((R.lat : ℝ) * 1e-7)) ≠ 0) :
    (local_ned_to_global (global_to_local_ned P R) R).lon = P.lon := by
  unfold local_ned_to_global global_to_local_ned
  simp only
  rw [mul_assoc, mul_div_cancel_right₀ _ (mul_ne_zero earth_radius_ne_zero h),
    rad2deg_deg2rad]
  have h7 : ((P.lon : ℝ) - (R.lon : ℝ)) * 1e-7 * 1e7 = ((P.lon - R.lon : ℤ) : ℝ) := by
    push_cast
    norm_num
    ring
  rw [h7, round_intCast]
  omega

theorem roundtrip_alt (P R : global_pos_int) :
    (local_ned_to_global (global_to_local_ned P R) R).alt = P.alt := by
  unfold local_ned_to_global global_to_local_ned
  simp only
  have h1 : -(((P.alt : ℝ) - (R.alt : ℝ)) / 1000) * 1000 = ((R.alt - P.alt : ℤ) : ℝ) := by
    push_cast
    field_simp
  rw [h1, round_intCast]
  omega

end math

/-- C1: composing the two coordinate transforms,
`local_ned_to_global (global_to_local_ned P R) R` recovers `P` to within
one fixed-point unit (1e-7 degree) of latitude and longitude and one
millimetre of altitude.  The reference must not sit exactly on a pole
(cosine of its latitude nonzero), which every reference within a few
kilometres of horizontal displacement from a valid mission area satisfies;
no other distance restriction is needed, as the modelled round trip is
exact before the final integer rounding. -/
theorem claim_C1_roundtrip (P R : global_pos_int)
    (h : Real.cos (math.deg2rad ((R.lat : ℝ) * 1e-7)) ≠ 0) :
    |(math.local_ned_to_global (math.global_to_local_ned P R) R).lat - P.lat| ≤ 1 ∧
    |(math.local_ned_to_global (math.global_to_local_ned P R) R).lon - P.lon| ≤ 1 ∧
    |(math.local_ned_to_global (math.global_to_local_ned P R) R).alt - P.alt| ≤ 1 := by
  rw [math.roundtrip_lat P R, math.roundtrip_lon P R h, math.roundtrip_alt P R]
  simp

/-- Witness for C1 at the concrete point `P = (lat 123456, lon -654321,
alt 7890)` against the reference at the origin. -/
theorem claim_C1_roundtrip_witness :
    Real.cos (math.deg2rad (((never_pos_int).lat : ℝ) * 1e-7)) ≠ 0 ∧
    (|(math.local_ned_to_global
        (math.global_to_local_ned
          { timestamp := 0, is_new := false, lat := 123456, lon := -654321, alt := 7890 }
          never_pos_int)
        never_pos_int).lat - 123456| ≤ 1 ∧
     |(math.local_ned_to_global
        (math.global_to_local_ned
          { timestamp := 0, is_new := false, lat := 123456, lon := -654321, alt := 7890 }
          never_pos_int)
        never_pos_int).lon - -654321| ≤ 1 ∧
     |(math.local_ned_to_global
        (math.global_to_local_ned
          { timestamp := 0, is_new := false, lat := 123456, lon := -654321, alt := 7890 }
          never_pos_int)
        never_pos_int).alt - 7890| ≤ 1) := by
  have h : Real.cos (math.deg2rad (((never_pos_int).lat : ℝ) * 1e-7)) ≠ 0 := by
    simp [never_pos_int, math.deg2rad]
  exact ⟨h, claim_C1_roundtrip
    { timestamp := 0, is_new := false, lat := 123456, lon := -654321, alt := 7890 }
    never_pos_int h⟩

/-- C9 counterexample: two distinct local points that differ only in the
down (altitude) coordinate have ground distance zero, so `ground_dist` is
not zero *only* when its arguments are equal — a ground (horizontal)
distance necessarily ignores the vertical coordinate. -/
theorem claim_C9_counterexample :
    math.ground_dist_local
        { timestamp := 0, is_new := false, x := 0, y := 0, z := 1 }
        { timestamp := 0, is_new := false, x := 0, y := 0, z := 0 } = 0 ∧
    ({ timestamp := 0, is_new := false, x := 0, y := 0, z := 1 } : local_pos) ≠
        { timestamp := 0, is_new := false, x := 0, y := 0, z := 0 } := by
  constructor
  · unfold math.ground_dist_local
    norm_num
  · intro hcontra
    have hz : (1 : ℝ) = 0 := congrArg local_pos.z hcontra
    norm_num at hz

/-- C9 (amended): both coordinate-frame overloads of `ground_dist` are
symmetric, and both vanish on equal arguments; the "only if" half of the
original zero-iff-equal claim fails because points differing only in
altitude are at ground distance zero. -/
theorem claim_C9_amended :
    (∀ A B : global_pos_int, math.ground_dist A B = math.ground_dist B A) ∧
    (∀ A B : local_pos, math.ground_dist_local A B = math.ground_dist_local B A) ∧
    (∀ A : global_pos_int, math.ground_dist A A = 0) ∧
    (∀ A : local_pos, math.ground_dist_local A A = 0) := by
  have key : ∀ a b : ℝ, Real.sin ((a - b) / 2) ^ 2 = Real.sin ((b - a) / 2) ^ 2 := by
    intro a b
    rw [show (a - b) / 2 = -((b - a) / 2) by ring, Real.sin_neg, neg_sq]
  refine ⟨?_, ?_, ?_, ?_⟩
  · intro A B
    unfold math.ground_dist
    rw [key (math.deg2rad ((B.lat : ℝ) * 1e-7)) (math.deg2rad ((A.lat : ℝ) * 1e-7)),
      key (math.deg2rad ((B.lon : ℝ) * 1e-7)) (math.deg2rad ((A.lon : ℝ) * 1e-7)),
      mul_comm (Real.cos (math.deg2rad ((A.lat : ℝ) * 1e-7)))
        (Real.cos (math.deg2rad ((B.lat : ℝ) * 1e-7)))]
  · intro A B
    unfold math.ground_dist_local
    rw [show (A.x - B.x) ^ 2 = (B.x - A.x) ^ 2 by ring,
      show (A.y - B.y) ^ 2 = (B.y - A.y) ^ 2 by ring]
  · intro A
    unfold math.ground_dist
    simp
  · intro A
    unfold math.ground_dist_local
    simp

/-- C10: immediately after construction — for any socket descriptor, with
or without an explicit system id — no mission transfer is in progress, no
maneuver is active, and every timestamped telemetry value (attitude, local
position, global position, home position) carries the epoch sentinel, is
not initialized and is not fresh. -/
theorem claim_C10_initial_state (fd : Int) (sysid : Option Nat) :
    is_sending_mission (init_vehicle fd sysid) = false ∧
    is_receiving_mission (init_vehicle fd sysid) = false ∧
    is_brake_active (init_vehicle fd sysid) = false ∧
    is_detour_active (init_vehicle fd sysid) = false ∧
    is_rotation_active (init_vehicle fd sysid) = false ∧
    (init_vehicle fd sysid).att.timestamp = 0 ∧
    (init_vehicle fd sysid).att.is_initialized = false ∧
    (init_vehicle fd sysid).att.is_new = false ∧
    (init_vehicle fd sysid).local_position.timestamp = 0 ∧
    (init_vehicle fd sysid).local_position.is_initialized = false ∧
    (init_vehicle fd sysid).local_position.is_new = false ∧
    (init_vehicle fd sysid).global.timestamp = 0 ∧
    (init_vehicle fd sysid).global.is_initialized = false ∧
    (init_vehicle fd sysid).global.is_new = false ∧
    (init_vehicle fd sysid).home.timestamp = 0 ∧
    (init_vehicle fd sysid).home.is_initialized = false ∧
    (init_vehicle fd sysid).home.is_new = false :=
  ⟨rfl, rfl, rfl, rfl, rfl, rfl, rfl, rfl, rfl, rfl, rfl, rfl, rfl, rfl, rfl, rfl, rfl⟩

/-- C5: issuing `rotate` while the brake maneuver is active immediately
deactivates the brake and activates the rotation; in general each of
`brake`, `send_detour_waypoint` and `rotate` makes its own maneuver the
single active one, preempting whichever of the three was active, with no
queuing. -/
theorem claim_C5_maneuver_preemption (v : mav_vehicle) (angle : ℝ)
    (lat lon alt : ℤ) (ac ar : Bool)
    (hb : is_brake_active v = true) :
    (is_brake_active (step v (.rotate angle ac)) = false ∧
     is_rotation_active (step v (.rotate angle ac)) = true) ∧
    (∀ w : mav_vehicle,
      is_brake_active (step w (.brake ac)) = true ∧
      is_detour_active (step w (.brake ac)) = false ∧
      is_rotation_active (step w (.brake ac)) = false) ∧
    (∀ w : mav_vehicle,
      is_detour_active (step w (.send_detour_waypoint lat lon alt ac ar)) = true ∧
      is_brake_active (step w (.send_detour_waypoint lat lon alt ac ar)) = false ∧
      is_rotation_active (step w (.send_detour_waypoint lat lon alt ac ar)) = false) ∧
    (∀ w : mav_vehicle,
      is_rotation_active (step w (.rotate angle ac)) = true ∧
      is_brake_active (step w (.rotate angle ac)) = false ∧
      is_detour_active (step w (.rotate angle ac)) = false) :=
  ⟨⟨rfl, rfl⟩, fun _ => ⟨rfl, rfl, rfl⟩, fun _ => ⟨rfl, rfl, rfl⟩, fun _ => ⟨rfl, rfl, rfl⟩⟩

/-- Witness for C5: a freshly constructed session put into BRAKING by
`brake`, then preempted by `rotate`. -/
theorem claim_C5_maneuver_preemption_witness :
    is_brake_active (step (init_vehicle 0 none) (.brake true)) = true ∧
    (is_brake_active (step (step (init_vehicle 0 none) (.brake true)) (.rotate 1 true)) = false ∧
     is_rotation_active (step (step (init_vehicle 0 none) (.brake true)) (.rotate 1 true)) = true) := by
  have hb : is_brake_active (step (init_vehicle 0 none) (.brake true)) = true := rfl
  exact ⟨hb, (claim_C5_maneuver_preemption
    (step (init_vehicle 0 none) (.brake true)) 1 0 0 0 true true hb).1⟩

theorem transfer_exclusive_step (v : mav_vehicle) (e : event)
    (h : (v.sending_mission && v.receiving_mission) = false) :
    ((step v e).sending_mission && (step v e).receiving_mission) = false := by
  cases e <;>
    simp only [step, get_attitude, get_local_position_ned, get_global_position_int,
      get_home_position_int, get_mission_waypoint, get_detour_waypoint, send_cmd_long] <;>
    (repeat' split) <;>
    simp_all

theorem transfer_exclusive_run (es : List event) :
    ∀ v : mav_vehicle, (v.sending_mission && v.receiving_mission) = false →
      ((run v es).sending_mission && (run v es).receiving_mission) = false := by
  induction es with
  | nil => exact fun v h => h
  | cons e es ih => exact fun v h => ih (step v e) (transfer_exclusive_step v e h)

/-- C2: in every reachable session state at most one of mission upload and
mission download is active, and starting one transfer direction
immediately aborts the other: `send_mission_waypoint` leaves the session
uploading and not downloading, `request_mission_list` leaves it
downloading and not uploading. -/
theorem claim_C2_transfer_exclusivity (fd : Int) (sysid : Option Nat) (es : List event) :
    ((run (init_vehicle fd sysid) es).sending_mission &&
      (run (init_vehicle fd sysid) es).receiving_mission) = false ∧
    (∀ v : mav_vehicle, ∀ lat lon alt : ℤ, ∀ ar : Bool,
      is_sending_mission (step v (.send_mission_waypoint lat lon alt ar)) = true ∧
      is_receiving_mission (step v (.send_mission_waypoint lat lon alt ar)) = false) ∧
    (∀ v : mav_vehicle,
      is_receiving_mission (step v .request_mission_list) = true ∧
      is_sending_mission (step v .request_mission_list) = false) :=
  ⟨transfer_exclusive_run es (init_vehicle fd sysid) rfl,
   fun _ _ _ _ _ => ⟨rfl, rfl⟩, fun _ => ⟨rfl, rfl⟩⟩

theorem mode_other_of_unknown_step (v : mav_vehicle) (e : event)
    (h : v.autopilot = .UNKNOWN → v.base_mode = .OTHER) :
    (step v e).autopilot = .UNKNOWN → (step v e).base_mode = .OTHER := by
  cases e
  case heartbeat family custom armed t =>
    intro hU
    show mode_from_raw (if v.autopilot = .UNKNOWN then family else v.autopilot) custom = .OTHER
    rw [show (if v.autopilot = .UNKNOWN then family else v.autopilot) = .UNKNOWN from hU]
    rfl
  all_goals
    simp only [step, get_attitude, get_local_position_ned, get_global_position_int,
      get_home_position_int, get_mission_waypoint, get_detour_waypoint, send_cmd_long]
  all_goals (repeat' split) <;> exact h

theorem mode_other_of_unknown_run (es : List event) :
    ∀ v : mav_vehicle, (v.autopilot = .UNKNOWN → v.base_mode = .OTHER) →
      (run v es).autopilot = .UNKNOWN → (run v es).base_mode = .OTHER := by
  induction es with
  | nil => exact fun v h => h
  | cons e es ih => exact fun v h => ih (step v e) (mode_other_of_unknown_step v e h)

/-- C4: interpreting a heartbeat whose detected family is APM with APM's
raw GUIDED code makes `get_mode` report GUIDED; likewise for PX4's distinct
raw GUIDED code; every raw code without a table entry for the detected
family maps to OTHER; and in every reachable state whose autopilot family
is still UNKNOWN, `get_mode` reports OTHER. -/
theorem claim_C4_mode_mapping :
    (∀ v : mav_vehicle, ∀ armed : Bool, ∀ t : Nat,
      v.autopilot = .UNKNOWN ∨ v.autopilot = .APM →
        get_mode (step v (.heartbeat .APM 4 armed t)) = .GUIDED) ∧
    (∀ v : mav_vehicle, ∀ armed : Bool, ∀ t : Nat,
      v.autopilot = .UNKNOWN ∨ v.autopilot = .PX4 →
        get_mode (step v (.heartbeat .PX4 6 armed t)) = .GUIDED) ∧
    (∀ family : autopilot_type, ∀ c : Nat,
      c ∉ known_mode_codes family → mode_from_raw family c = .OTHER) ∧
    (∀ c : Nat, mode_from_raw .UNKNOWN c = .OTHER) ∧
    (∀ fd : Int, ∀ sysid : Option Nat, ∀ es : List event,
      (run (init_vehicle fd sysid) es).autopilot = .UNKNOWN →
        get_mode (run (init_vehicle fd sysid) es) = .OTHER) := by
  refine ⟨?_, ?_, ?_, fun _ => rfl, ?_⟩
  · rintro v armed t (h | h) <;> simp [step, get_mode, h, mode_from_raw]
  · rintro v armed t (h | h) <;> simp [step, get_mode, h, mode_from_raw]
  · intro family c hc
    cases family
    case UNKNOWN => rfl
    case APM =>
      simp only [known_mode_codes, List.mem_cons, List.not_mem_nil] at hc
      push_neg at hc
      simp [mode_from_raw, hc.1, hc.2.1, hc.2.2.1]
    case PX4 =>
      simp only [known_mode_codes, List.mem_cons, List.not_mem_nil] at hc
      push_neg at hc
      simp [mode_from_raw, hc.1, hc.2.1, hc.2.2.1]
  · intro fd sysid es
    exact mode_other_of_unknown_run es (init_vehicle fd sysid) (fun _ => rfl)

/-- Witness for C4: a fresh session (family undetected) receives an APM
heartbeat carrying APM's GUIDED code; the unrecognized code 99 maps to
OTHER. -/
theorem claim_C4_mode_mapping_witness :
    ((init_vehicle 0 none).autopilot = .UNKNOWN ∨ (init_vehicle 0 none).autopilot = .APM) ∧
    get_mode (step (init_vehicle 0 none) (.heartbeat .APM 4 true 5)) = .GUIDED ∧
    (99 : Nat) ∉ known_mode_codes .APM ∧
    mode_from_raw .APM 99 = .OTHER := by
  have h1 : (init_vehicle 0 none).autopilot = .UNKNOWN ∨
      (init_vehicle 0 none).autopilot = .APM := Or.inl rfl
  have h2 : (99 : Nat) ∉ known_mode_codes .APM := by decide
  exact ⟨h1, claim_C4_mode_mapping.1 (init_vehicle 0 none) true 5 h1, h2,
    claim_C4_mode_mapping.2.2.1 .APM 99 h2⟩

/-- C6: `send_cmd_long` transmits and records the current wall clock for
the command id exactly when no last-send timestamp is stored for it or the
stored one is older than the fixed retry interval (a constant shorter than
the caller timeouts it is used with); otherwise the call transmits nothing
and leaves the whole session state, the timestamp map included,
unchanged. -/
theorem claim_C6_cmd_throttle (v : mav_vehicle) (cmd : Nat)
    (p1 p2 p3 p4 p5 p6 p7 : ℝ) (timeout now : Nat)
    (htim : cmd_retry_interval < timeout) :
    ((send_cmd_long v cmd p1 p2 p3 p4 p5 p6 p7 timeout now).2 = true ↔
      (v.cmd_long_timestamps.lookup cmd = none ∨
       ∃ last, v.cmd_long_timestamps.lookup cmd = some last ∧
         last + cmd_retry_interval < now)) ∧
    ((send_cmd_long v cmd p1 p2 p3 p4 p5 p6 p7 timeout now).2 = true →
      (send_cmd_long v cmd p1 p2 p3 p4 p5 p6 p7 timeout now).1.cmd_long_timestamps.lookup cmd
        = some now) ∧
    ((send_cmd_long v cmd p1 p2 p3 p4 p5 p6 p7 timeout now).2 = false →
      (send_cmd_long v cmd p1 p2 p3 p4 p5 p6 p7 timeout now).1 = v) := by
  cases hl : v.cmd_long_timestamps.lookup cmd with
  | none =>
      refine ⟨by simp [send_cmd_long, hl], fun _ => ?_, by simp [send_cmd_long, hl]⟩
      simp [send_cmd_long, hl, List.lookup]
  | some last =>
      by_cases hlt : last + cmd_retry_interval < now
      · refine ⟨by simp [send_cmd_long, hl, hlt], fun _ => ?_,
          by simp [send_cmd_long, hl, hlt]⟩
        simp [send_cmd_long, hl, hlt, List.lookup]
      · refine ⟨by simp [send_cmd_long, hl, hlt], fun hcontra => ?_,
          fun _ => by simp [send_cmd_long, hl, hlt]⟩
        simp [send_cmd_long, hl, hlt] at hcontra

/-- Witness for C6: a fresh session (empty timestamp map) sends command 16
with a 5 s timeout at wall clock 7; the frame is transmitted and the
timestamp recorded. -/
theorem claim_C6_cmd_throttle_witness :
    cmd_retry_interval < 5000 ∧
    (((send_cmd_long (init_vehicle 0 none) 16 0 0 0 0 0 0 0 5000 7).2 = true ↔
      ((init_vehicle 0 none).cmd_long_timestamps.lookup 16 = none ∨
       ∃ last, (init_vehicle 0 none).cmd_long_timestamps.lookup 16 = some last ∧
         last + cmd_retry_interval < 7)) ∧
    ((send_cmd_long (init_vehicle 0 none) 16 0 0 0 0 0 0 0 5000 7).2 = true →
      (send_cmd_long (init_vehicle 0 none) 16 0 0 0 0 0 0 0 5000 7).1.cmd_long_timestamps.lookup 16
        = some 7) ∧
    ((send_cmd_long (init_vehicle 0 none) 16 0 0 0 0 0 0 0 5000 7).2 = false →
      (send_cmd_long (init_vehicle 0 none) 16 0 0 0 0 0 0 0 5000 7).1 = init_vehicle 0 none)) := by
  have htim : cmd_retry_interval < 5000 := by decide
  exact ⟨htim, claim_C6_cmd_throttle (init_vehicle 0 none) 16 0 0 0 0 0 0 0 5000 7 htim⟩

/-- C7: for each of the four timestamped telemetry observables (attitude,
local position, global position, home position), the freshness flag is true
immediately after the interpreter update that wrote it, false immediately
after the next read through the public accessor, and untouched by every
event that neither writes nor reads that observable — the read is the only
operation that clears it. -/
theorem claim_C7_freshness (v : mav_vehicle) (r p y xx yy zz : ℝ)
    (lat lon alt : ℤ) (t : Nat) :
    ((step v (.attitude_msg r p y t)).att.is_new = true ∧
     (step v .read_attitude).att.is_new = false ∧
     ∀ e : event, writes_attitude e = false → reads_attitude e = false →
       (step v e).att.is_new = v.att.is_new) ∧
    ((step v (.local_position_msg xx yy zz t)).local_position.is_new = true ∧
     (step v .read_local_position).local_position.is_new = false ∧
     ∀ e : event, writes_local_position e = false → reads_local_position e = false →
       (step v e).local_position.is_new = v.local_position.is_new) ∧
    ((step v (.global_position_msg lat lon alt t)).global.is_new = true ∧
     (step v .read_global_position).global.is_new = false ∧
     ∀ e : event, writes_global_position e = false → reads_global_position e = false →
       (step v e).global.is_new = v.global.is_new) ∧
    ((step v (.home_position_msg lat lon alt t)).home.is_new = true ∧
     (step v .read_home_position).home.is_new = false ∧
     ∀ e : event, writes_home_position e = false → reads_home_position e = false →
       (step v e).home.is_new = v.home.is_new) := by
  refine ⟨⟨rfl, rfl, ?_⟩, ⟨rfl, rfl, ?_⟩, ⟨rfl, rfl, ?_⟩, ⟨rfl, rfl, ?_⟩⟩ <;>
    (intro e hw hr
     cases e
     all_goals try rfl
     all_goals try (simp [writes_attitude] at hw)
     all_goals try (simp [writes_local_position] at hw)
     all_goals try (simp [writes_global_position] at hw)
     all_goals try (simp [writes_home_position] at hw)
     all_goals try (simp [reads_attitude] at hr)
     all_goals try (simp [reads_local_position] at hr)
     all_goals try (simp [reads_global_position] at hr)
     all_goals try (simp [reads_home_position] at hr)
     all_goals simp only [step, send_cmd_long]
     all_goals (repeat' split) <;> rfl)

/-- Witness for C7: the attitude freshness flag of a fresh session is
untouched by a `brake` call, which neither writes nor reads attitude. -/
theorem claim_C7_freshness_witness :
    writes_attitude (.brake true) = false ∧
    reads_attitude (.brake true) = false ∧
    (step (init_vehicle 0 none) (.brake true)).att.is_new = (init_vehicle 0 none).att.is_new :=
  ⟨rfl, rfl,
   (claim_C7_freshness (init_vehicle 0 none) 0 0 0 0 0 0 0 0 0 0).1.2.2
     (.brake true) rfl rfl⟩

/-- C8: when no heartbeat-equivalent frame has been interpreted for longer
than the liveness timeout, the update cycle's liveness evaluation makes
`get_status` report STANDBY while leaving the mission-transfer and maneuver
state untouched; interpreting one fresh heartbeat afterwards restores
ACTIVE, again without touching transfer or maneuver state, so those
activities resume once liveness returns. -/
theorem claim_C8_liveness (v : mav_vehicle) (now : Nat)
    (hstale : v.remote_last_response_time + liveness_timeout < now) :
    get_status (step v (.update_cycle now)) = .STANDBY ∧
    (step v (.update_cycle now)).sending_mission = v.sending_mission ∧
    (step v (.update_cycle now)).receiving_mission = v.receiving_mission ∧
    (step v (.update_cycle now)).mission_to_send = v.mission_to_send ∧
    (step v (.update_cycle now)).received_mission = v.received_mission ∧
    (step v (.update_cycle now)).mission_size = v.mission_size ∧
    (step v (.update_cycle now)).mstatus = v.mstatus ∧
    (∀ family : autopilot_type, ∀ custom : Nat, ∀ armed : Bool, ∀ t : Nat,
      get_status (step (step v (.update_cycle now)) (.heartbeat family custom armed t)) = .ACTIVE ∧
      (step (step v (.update_cycle now)) (.heartbeat family custom armed t)).sending_mission
        = v.sending_mission ∧
      (step (step v (.update_cycle now)) (.heartbeat family custom armed t)).receiving_mission
        = v.receiving_mission ∧
      (step (step v (.update_cycle now)) (.heartbeat family custom armed t)).mstatus
        = v.mstatus) := by
  have hs : step v (.update_cycle now) =
      { v with stat := .STANDBY, remote_responding := false } := by
    simp [step, hstale]
  rw [hs]
  exact ⟨rfl, rfl, rfl, rfl, rfl, rfl, rfl, fun _ _ _ _ => ⟨rfl, rfl, rfl, rfl⟩⟩

/-- Witness for C8: a fresh session (no heartbeat ever interpreted) is
evaluated at wall clock 4000 ms, past the 3000 ms liveness timeout, then
receives a heartbeat. -/
theorem claim_C8_liveness_witness :
    (init_vehicle 0 none).remote_last_response_time + liveness_timeout < 4000 ∧
    (get_status (step (init_vehicle 0 none) (.update_cycle 4000)) = .STANDBY ∧
     get_status (step (step (init_vehicle 0 none) (.update_cycle 4000))
       (.heartbeat .APM 4 true 4100)) = .ACTIVE) := by
  have hstale : (init_vehicle 0 none).remote_last_response_time + liveness_timeout < 4000 := by
    decide
  have h := claim_C8_liveness (init_vehicle 0 none) 4000 hstale
  exact ⟨hstale, h.1, (h.2.2.2.2.2.2.2 .APM 4 true 4100).1⟩

theorem run_nil (v : mav_vehicle) : run v [] = v := rfl

theorem run_cons (v : mav_vehicle) (e : event) (es : List event) :
    run v (e :: es) = run (step v e) es := rfl

theorem item_events_nil (t : Nat) : item_events [] t = [] := rfl

theorem item_events_cons (i : ℤ × ℤ × ℤ) (is : List (ℤ × ℤ × ℤ)) (t : Nat) :
    item_events (i :: is) t = .mission_item_msg i.1 i.2.1 i.2.2 t :: item_events is t := rfl

theorem feed_items_partial (items : List (ℤ × ℤ × ℤ)) (t : Nat) :
    ∀ v : mav_vehicle, v.receiving_mission = true →
      v.received_mission.length + items.length < v.mission_size →
      (run v (item_events items t)).receiving_mission = true ∧
      (run v (item_events items t)).mission_waypoint = v.mission_waypoint ∧
      (run v (item_events items t)).received_mission.length
        = v.received_mission.length + items.length := by
  induction items with
  | nil =>
      intro v hrecv _
      exact ⟨hrecv, rfl, by simp [item_events_nil, run_nil]⟩
  | cons i is ih =>
      intro v hrecv hlen
      rw [item_events_cons, run_cons]
      have hne : ¬ (v.received_mission.length + 1 = v.mission_size) := by
        simp only [List.length_cons] at hlen
        omega
      have hstep : step v (.mission_item_msg i.1 i.2.1 i.2.2 t) =
          { v with received_mission := v.received_mission ++
              [{ timestamp := t, is_new := true, lat := i.1, lon := i.2.1, alt := i.2.2 }] } := by
        simp [step, hrecv, hne]
      rw [hstep]
      obtain ⟨h1, h2, h3⟩ := ih
        { v with received_mission := v.received_mission ++
            [{ timestamp := t, is_new := true, lat := i.1, lon := i.2.1, alt := i.2.2 }] }
        hrecv
        (by simp only [List.length_cons] at hlen
            simp only [List.length_append, List.length_singleton]
            omega)
      refine ⟨h1, h2, ?_⟩
      simp only [List.length_append, List.length_singleton] at h3
      rw [h3]
      simp only [List.length_cons]
      omega

theorem feed_items_complete (items : List (ℤ × ℤ × ℤ)) (t : Nat) :
    ∀ v : mav_vehicle, v.receiving_mission = true →
      items ≠ [] →
      v.received_mission.length + items.length = v.mission_size →
      (run v (item_events items t)).receiving_mission = false := by
  induction items with
  | nil =>
      intro v _ hne _
      exact absurd rfl hne
  | cons i is ih =>
      intro v hrecv _ hlen
      rw [item_events_cons, run_cons]
      by_cases hnil : is = []
      · subst hnil
        have hφ : v.received_mission.length + 1 = v.mission_size := by
          simp only [List.length_cons, List.length_nil] at hlen
          omega
        rw [item_events_nil, run_nil]
        simp [step, hrecv, hφ]
      · have hne : ¬ (v.received_mission.length + 1 = v.mission_size) := by
          have hpos : 0 < is.length := List.length_pos.mpr hnil
          simp only [List.length_cons] at hlen
          omega
        have hstep : step v (.mission_item_msg i.1 i.2.1 i.2.2 t) =
            { v with received_mission := v.received_mission ++
                [{ timestamp := t, is_new := true, lat := i.1, lon := i.2.1, alt := i.2.2 }] } := by
          simp [step, hrecv, hne]
        rw [hstep]
        apply ih
          { v with received_mission := v.received_mission ++
              [{ timestamp := t, is_new := true, lat := i.1, lon := i.2.1, alt := i.2.2 }] }
          hrecv hnil
        simp only [List.length_cons] at hlen
        simp only [List.length_append, List.length_singleton]
        omega

/-- C3: after a download is started by `request_mission_list` and the peer
announces a count of N, the session still reports an active download and
`get_mission_waypoint` still returns the pre-download value after any
strict prefix of the N item frames; only once all N announced items have
arrived does `is_receiving_mission` become false. -/
theorem claim_C3_download_atomicity (v0 : mav_vehicle) (N : Nat)
    (items : List (ℤ × ℤ × ℤ)) (t : Nat) (hN : 0 < N) :
    (items.length < N →
      is_receiving_mission (run (step (step v0 .request_mission_list) (.mission_count_msg N))
        (item_events items t)) = true ∧
      (get_mission_waypoint (run (step (step v0 .request_mission_list) (.mission_count_msg N))
        (item_events items t))).1 = (get_mission_waypoint v0).1) ∧
    (items.length = N →
      is_receiving_mission (run (step (step v0 .request_mission_list) (.mission_count_msg N))
        (item_events items t)) = false) := by
  have hN' : ¬ (N = 0) := Nat.pos_iff_ne_zero.mp hN
  have hs1 : step (step v0 .request_mission_list) (.mission_count_msg N) =
      { v0 with receiving_mission := true, sending_mission := false,
                mission_size := N, received_mission := [] } := by
    simp [step, hN']
  constructor
  · intro hlt
    rw [hs1]
    obtain ⟨h1, h2, _⟩ := feed_items_partial items t
      { v0 with receiving_mission := true, sending_mission := false,
                mission_size := N, received_mission := [] }
      rfl (by simpa using hlt)
    exact ⟨h1, h2⟩
  · intro hlen
    have hne : items ≠ [] := by
      intro hcontra
      rw [hcontra] at hlen
      simp at hlen
      omega
    rw [hs1]
    exact feed_items_complete items t
      { v0 with receiving_mission := true, sending_mission := false,
                mission_size := N, received_mission := [] }
      rfl hne (by simpa using hlen)

/-- Witness for C3: a fresh session downloads a mission announced with two
items; after one item it is still receiving and the exposed mission
waypoint is unchanged. -/
theorem claim_C3_download_atomicity_witness :
    0 < 2 ∧
    ([((1 : ℤ), (2 : ℤ), (3 : ℤ))].length < 2) ∧
    (is_receiving_mission (run (step (step (init_vehicle 0 none) .request_mission_list)
        (.mission_count_msg 2)) (item_events [(1, 2, 3)] 9)) = true ∧
     (get_mission_waypoint (run (step (step (init_vehicle 0 none) .request_mission_list)
        (.mission_count_msg 2)) (item_events [(1, 2, 3)] 9))).1
       = (get_mission_waypoint (init_vehicle 0 none)).1) := by
  have hN : 0 < 2 := by decide
  have hlt : ([((1 : ℤ), (2 : ℤ), (3 : ℤ))] : List (ℤ × ℤ × ℤ)).length < 2 := by decide
  exact ⟨hN, hlt,
    (claim_C3_download_atomicity (init_vehicle 0 none) 2 [(1, 2, 3)] 9 hN).1 hlt⟩

end mavlink_vehicles
